import Mathlib

/-!
A formal model of the domain-scraping and classification pipeline of the
`email-spam-generator` repository, together with theorems settling the
behavioural claims about it.

The Python sources are shallowly embedded: pure helper functions become Lean
functions over `List Char` / `String`; effectful steps (DNS resolution,
browser navigation, storage, HTTP classification backends) are parameterised
by explicit environment records, and the observable actions of the scraper
are recorded in an explicit event trace.  Python floats are modelled as `ℚ`.
Standard-library behaviour (the `ipaddress` module, `urlparse`, the JSON
parser) is abstracted into environment-supplied data where noted.
-/

/- ### Character-list text primitives (Python `str` operations) -/

/-- Model of Python's `str.strip()` (drop leading and trailing whitespace). -/
def py_strip (l : List Char) : List Char :=
  ((l.dropWhile Char.isWhitespace).reverse.dropWhile Char.isWhitespace).reverse

/-- Model of Python's `str.lower()` (ASCII case folding). -/
def py_lower (l : List Char) : List Char :=
  l.map Char.toLower

/-- Model of Python's `str.upper()` (ASCII case folding). -/
def py_upper (l : List Char) : List Char :=
  l.map Char.toUpper

/-- String-level wrapper for `py_upper`, modelling `s.upper()`. -/
def str_upper (s : String) : String :=
  String.mk (py_upper s.data)

/-- String-level wrapper for `py_lower`, modelling `s.lower()`. -/
def str_lower (s : String) : String :=
  String.mk (py_lower s.data)

/-- String-level wrapper for `py_strip`, modelling `s.strip()`. -/
def str_strip (s : String) : String :=
  String.mk (py_strip s.data)

/-- Does `l` start with `pre`?  Model of Python's `str.startswith`. -/
def list_starts_with : List Char → List Char → Bool
  | [], _ => true
  | _ :: _, [] => false
  | a :: as, b :: bs => a == b && list_starts_with as bs

/-- Is `needle` a contiguous sublist of `hay`?  Model of Python's `in`
substring test. -/
def contains_sub (hay needle : List Char) : Bool :=
  if list_starts_with needle hay then true
  else
    match hay with
    | [] => false
    | _ :: t => contains_sub t needle

/-- String-level wrapper for `contains_sub`, modelling `needle in hay`. -/
def str_contains (hay needle : String) : Bool :=
  contains_sub hay.data needle.data

/-- Split a character list at every occurrence of `sep`; the model of
Python's `str.split(sep)` used for `domain.split(".")`-style calls. -/
def split_on_char (sep : Char) : List Char → List (List Char)
  | [] => [[]]
  | c :: cs =>
    match split_on_char sep cs with
    | [] => [[]]
    | h :: t => if c == sep then [] :: h :: t else (c :: h) :: t

/-- Token counter with a flag recording whether the scan currently sits
inside a token: a non-whitespace character opens a new token exactly when
the flag is off. -/
def count_tokens_aux (in_token : Bool) : List Char → Nat
  | [] => 0
  | c :: cs =>
    if Char.isWhitespace c then count_tokens_aux false cs
    else (if in_token then 0 else 1) + count_tokens_aux true cs

/-- Number of maximal whitespace-separated tokens; the model of
`len(s.split())` with Python's no-argument `split`. -/
def count_tokens (l : List Char) : Nat :=
  count_tokens_aux false l

/- ### `email_generator/utils/domain_utils.py` -/

/-- Characters admitted by the label character class `[A-Za-z0-9-]` of the
domain regex in `is_valid_domain`. -/
def is_label_char (c : Char) : Bool :=
  c.isAlpha || c.isDigit || c == '-'

/-- One dot-separated label matches `(?!-)[A-Za-z0-9-]{1,63}(?<!-)`:
nonempty, at most 63 characters, only label characters, and no leading or
trailing hyphen. -/
def valid_label (lab : List Char) : Bool :=
  match lab with
  | [] => false
  | c :: cs =>
    decide ((c :: cs).length ≤ 63) && (c :: cs).all is_label_char &&
      !(c == '-') && !((c :: cs).getLast? == some '-')

/-- Model of `is_valid_domain` (`domain_utils.py` lines 24-29): reject
strings longer than 253 characters, then require a full match of
`^(?!-)[A-Za-z0-9-]{1,63}(?<!-)(\.(?!-)[A-Za-z0-9-]{1,63}(?<!-))*$`,
i.e. every dot-separated label is a valid label. -/
def is_valid_domain (domain : String) : Bool :=
  if 253 < domain.length then false
  else (split_on_char '.' domain.data).all valid_label

/-- Hostname extraction of `urllib.parse.urlparse(d).hostname or netloc`
for an input already carrying an `http://` or `https://` scheme: the netloc
is the text after the scheme up to the first `/`, `?` or `#`; the hostname
drops the userinfo (up to the last `@`) and the port (after the first `:`).
If the hostname is empty the netloc is used, mirroring
`parsed.hostname or parsed.netloc`. -/
def urlparse_hostname (d : String) : String :=
  let rest :=
    if list_starts_with "https://".data d.data then d.data.drop 8
    else if list_starts_with "http://".data d.data then d.data.drop 7
    else d.data
  let netloc := rest.takeWhile (fun c => !(c == '/') && !(c == '?') && !(c == '#'))
  let hostinfo :=
    match (split_on_char '@' netloc).getLast? with
    | none => netloc
    | some h => h
  let hostname := hostinfo.takeWhile (fun c => !(c == ':'))
  if hostname.isEmpty then String.mk netloc else String.mk hostname

/-- Model of `normalize_domain` (`domain_utils.py` lines 10-22): strip and
lowercase, prepend `http://` when no scheme is present, extract the
hostname, and drop a leading `www.`. -/
def normalize_domain (domain : String) : String :=
  let d := str_lower (str_strip domain)
  let d :=
    if !(list_starts_with "http://".data d.data || list_starts_with "https://".data d.data)
    then "http://" ++ d else d
  let hostname := urlparse_hostname d
  if list_starts_with "www.".data hostname.data then String.mk (hostname.data.drop 4)
  else hostname

/- ### `email_generator/utils/text_filters.py` -/

/-- The noise-signal list of `useless_text` (`text_filters.py` lines 9-13),
transcribed verbatim from the source. -/
def noisy_signals : List String :=
  ["error 404", "not found", "403 forbidden", "cloudflare", "captcha",
   "this site can’t be reached", "access denied", "nginx", "server error",
   "that’s all we know", "please enable javascript", "502 bad gateway"]

/-- Number of noise signals occurring in the lowercased text:
`sum(1 for signal in noisy_signals if signal in lowered)`. -/
def matched_signals (lowered : List Char) : Nat :=
  (noisy_signals.filter (fun s => contains_sub lowered s.data)).length

/-- Model of `useless_text` (`text_filters.py` lines 3-18): true when the
text is empty or its stripped length is below 30, and otherwise when at
least 2 noise signals occur or fewer than 10 whitespace tokens exist. -/
def useless_text (text : String) : Bool :=
  if text.data.isEmpty || (py_strip text.data).length < 30 then true
  else
    let lowered := py_lower text.data
    let num_tokens := count_tokens lowered
    decide (2 ≤ matched_signals lowered) || decide (num_tokens < 10)

/- ### `email_generator/classifier/text_extractor.py` -/

/-- Abstraction of a parsed `BeautifulSoup` document: the text of the title
tag, the `content` attribute of the description meta tag (when the tag
exists), the text of the first `h1`, and the stripped texts of the `p`
elements in document order. -/
structure Soup where
  title : Option String
  meta_description : Option String
  h1 : Option String
  paragraphs : List String
deriving DecidableEq

/-- The parts list that `extract_text` accumulates (title, meta description,
first `h1`, and up to `max_paragraphs` paragraph texts longer than 30
characters not mentioning "cookie"). -/
def extract_text_parts (soup : Soup) (max_paragraphs : Nat) : List String :=
  let parts : List String :=
    match soup.title with
    | some t => [str_strip t]
    | none => []
  let parts :=
    match soup.meta_description with
    | some c => if !(c == "") then parts ++ [c] else parts
    | none => parts
  let parts :=
    match soup.h1 with
    | some h => parts ++ [str_strip h]
    | none => parts
  parts ++ ((soup.paragraphs.take max_paragraphs).map str_strip).filter
    (fun t => decide (30 < t.length) && !(contains_sub (py_lower t.data) "cookie".data))

/-- Model of `extract_text` (`classifier/text_extractor.py`): the Python
function builds `parts` but contains no `return` statement, so control
falls off the end of the function body and the call evaluates to `None`
regardless of the document. -/
def extract_text (soup : Soup) (max_paragraphs : Nat) : Option String :=
  let _parts := extract_text_parts soup max_paragraphs
  none

/- ### `email_generator/classifier/security/cloud_metadata.py` -/

/-- Abstraction of the result of `ipaddress.ip_address(ip_str)`: either an
IPv4 or IPv6 address object carrying its canonical string form (`str(ip)`)
and the classification attributes the standard library computes for it, or
a parse failure (`ValueError`). -/
inductive IPAddr where
  | v4 (canon : String) (is_private is_loopback is_link_local is_multicast
        is_reserved is_unspecified : Bool)
  | v6 (canon : String) (is_private is_loopback is_link_local is_multicast
        is_reserved is_unspecified is_site_local : Bool)
  | invalid
deriving DecidableEq

/-- Environment for the network-dependent parts of the safety check: the
`socket.getaddrinfo` results for the scraped domain (`none` models a raised
`socket.gaierror`), the `ipaddress` parser, and the current cloud-metadata
IP set. -/
structure DnsEnv where
  resolve4 : Option (List String)
  resolve6 : Option (List String)
  parse_ip : String → IPAddr
  cloud_ips : List String

/-- Model of `is_dangerous_ip` (`cloud_metadata.py` lines 15-46): a parse
failure is dangerous; otherwise membership in the cloud-metadata set (by
raw string or canonical form) is dangerous, and otherwise the standard
address-class attributes decide, with `is_site_local` additionally checked
for IPv6. -/
def is_dangerous_ip (env : DnsEnv) (ip_str : String) : Bool :=
  match env.parse_ip ip_str with
  | .invalid => true
  | .v4 canon priv lo ll mc rsv unspec =>
    if env.cloud_ips.contains ip_str || env.cloud_ips.contains canon then true
    else priv || lo || ll || mc || rsv || unspec
  | .v6 canon priv lo ll mc rsv unspec sl =>
    if env.cloud_ips.contains ip_str || env.cloud_ips.contains canon then true
    else priv || lo || ll || mc || rsv || unspec || sl

/-- Zone-index stripping applied to IPv6 results: `ip.split('%')[0]`. -/
def strip_zone (ip : String) : String :=
  String.mk (ip.data.takeWhile (fun c => !(c == '%')))

/-- The `all_ips` list assembled by `check_domain_safety`: the IPv4 results
followed by the zone-stripped IPv6 results, where a resolver error
contributes nothing. -/
def dns_all_ips (env : DnsEnv) : List String :=
  (match env.resolve4 with
   | none => []
   | some l => l) ++
  (match env.resolve6 with
   | none => []
   | some l => l.map strip_zone)

/-- Model of `check_domain_safety` (`cloud_metadata.py` lines 52-86): fail
closed (`false`) when resolution yields no addresses, and otherwise succeed
exactly when no resolved address is dangerous. -/
def check_domain_safety (env : DnsEnv) (domain : String) : Bool :=
  let all_ips := dns_all_ips env
  if all_ips.isEmpty then false
  else all_ips.all (fun ip => !(is_dangerous_ip env ip))

/- ### `AdaptiveTimeoutManager` (`qwen_scraper.py` lines 140-165) -/

/-- Per-domain entry of `_domain_stats`. -/
structure DomainStats where
  avg_response_time : ℚ
  count : Nat
deriving DecidableEq

/-- The timeout manager: base and maximum timeout plus the per-domain
statistics map (an association list standing for the Python dict). -/
structure AdaptiveTimeoutManager where
  base_timeout : ℚ
  max_timeout : ℚ
  domain_stats : List (String × DomainStats)

/-- The `stats.get('avg_response_time', 0)` read of `get_timeout`. -/
def AdaptiveTimeoutManager.avg_of (m : AdaptiveTimeoutManager) (domain : String) : ℚ :=
  match m.domain_stats.lookup domain with
  | none => 0
  | some st => st.avg_response_time

/-- Model of `AdaptiveTimeoutManager.get_timeout`: with a positive running
average, `min(avg * 3, max_timeout)` raised to at least `base_timeout`;
otherwise the base timeout. -/
def AdaptiveTimeoutManager.get_timeout (m : AdaptiveTimeoutManager) (domain : String) : ℚ :=
  let avg_response_time := m.avg_of domain
  if 0 < avg_response_time then
    max (min (avg_response_time * 3) m.max_timeout) m.base_timeout
  else m.base_timeout

/-- Model of `AdaptiveTimeoutManager.update_stats`: insert a first
observation with count 1, or update the running average in place. -/
def AdaptiveTimeoutManager.update_stats (m : AdaptiveTimeoutManager) (domain : String)
    (response_time : ℚ) : AdaptiveTimeoutManager :=
  match m.domain_stats.lookup domain with
  | none =>
    { m with domain_stats := (domain, ⟨response_time, 1⟩) :: m.domain_stats }
  | some st =>
    let new_avg := (st.avg_response_time * (st.count : ℚ) + response_time) / ((st.count : ℚ) + 1)
    { m with domain_stats :=
        m.domain_stats.map (fun p => if p.1 == domain then (domain, ⟨new_avg, st.count + 1⟩) else p) }

/- ### `WebScraper` (`qwen_scraper.py` lines 167-365) -/

/-- Result record of a scrape, mirroring the `ScrapeResult` dataclass. -/
structure ScrapeResult where
  domain : String
  text : String
  error : Option String
  skipped : Bool
  response_time : ℚ
  final_url : Option String
deriving DecidableEq

/-- Observable actions of the scraper, recorded in execution order:
validator and storage queries, rate limiting, the SafetyGuard DNS check,
per-IP danger checks, the robots consultation, browser-pool session
acquisition, navigation, sleeps, stored results, and the start of each
outer retry attempt (the call to `_scrape_with_protocols`). -/
inductive Event where
  | valid_check (domain : String)
  | scraped_check (domain : String)
  | rate_limit (domain : String)
  | safety_check (domain : String)
  | danger_ip_check (ip : String)
  | robots_check (domain : String)
  | page_acquire
  | goto (url : String)
  | sleep (seconds : ℚ)
  | store (domain : String)
  | attempt_call (n : Nat)
deriving DecidableEq

/-- Is the event a SafetyGuard validation (`check_domain_safety` or
`is_dangerous_ip`)? -/
def is_safety_event : Event → Bool
  | .safety_check _ => true
  | .danger_ip_check _ => true
  | _ => false

/-- Is the event one of the two checks that precede all rate limiting,
safety checking and browser or network activity? -/
def is_pre_network_event : Event → Bool
  | .valid_check _ => true
  | .scraped_check _ => true
  | _ => false

/-- Outcome of one `page.goto(url)` navigation inside the pooled page:
successful navigation with the observed responses (status and url of each,
in arrival order) and the final page content, a `PlaywrightTimeout`, or
another raised exception with its message. -/
inductive NavOutcome where
  | ok (responses : List (Nat × String)) (html : String)
  | timeout
  | raise (msg : String)
deriving DecidableEq

/-- Environment of one `_scrape_url` call: the navigation outcome, the
parsed document for the final content, the measured response time, and the
(randomised) adaptive delays the rate limiter hands back on the error and
success paths. -/
structure UrlEnv where
  nav : NavOutcome
  soup : Soup
  response_time : ℚ
  delay_err : ℚ
  delay_ok : ℚ
deriving DecidableEq

/-- Output of a scraping step: the result, the event trace, and the updated
timeout manager (the one piece of scraper state the step mutates). -/
structure StepOut where
  res : ScrapeResult
  trace : List Event
  mgr : AdaptiveTimeoutManager

/-- The blocking keywords scanned for in `_scrape_url`. -/
def blocking_keywords : List String :=
  ["captcha", "cloudflare", "bot detection", "access denied", "blocked"]

/-- The redirect responses collected by the `handle_response` hook:
responses with status in `[300, 400)`. -/
def collect_redirects (responses : List (Nat × String)) : List (Nat × String) :=
  responses.filter (fun p => decide (300 ≤ p.1) && decide (p.1 < 400))

/-- Decimal rendering of a rational, standing in for Python float
formatting inside f-strings. -/
def rat_repr (q : ℚ) : String :=
  toString q

/-- Model of `WebScraper._scrape_url` (`qwen_scraper.py` lines 249-330).
A pooled page is acquired and `page.goto(url)` is issued; the response hook
only collects 3xx responses, and no validator call of any kind occurs in
this function.  After navigation: redirect-count limit, size window,
blocking-keyword scan, then text extraction.  `max_redirects` and
`max_html_size` are the scraper fields (2 and 1000000 in `__init__`). -/
def scrape_url (env : UrlEnv) (mgr : AdaptiveTimeoutManager)
    (max_redirects max_html_size : Nat) (url domain protocol : String) : StepOut :=
  let timeout := mgr.get_timeout domain
  match env.nav with
  | .timeout =>
    { res := ⟨domain, "", some (str_upper protocol ++ " timeout after " ++ rat_repr timeout ++ "s"),
              false, 0, none⟩,
      trace := [.page_acquire, .goto url, .sleep env.delay_err],
      mgr := mgr }
  | .raise msg =>
    let error_msg := str_lower msg
    let res : ScrapeResult :=
      if str_contains error_msg "net::err_name_not_resolved" then
        ⟨domain, "", some (str_upper protocol ++ " domain not found: " ++ domain), false, 0, none⟩
      else if str_contains error_msg "net::err_connection_refused" then
        ⟨domain, "", some (str_upper protocol ++ " connection refused by " ++ domain), false, 0, none⟩
      else if str_contains error_msg "net::err_connection_timed_out" then
        ⟨domain, "", some (str_upper protocol ++ " connection timeout to " ++ domain), false, 0, none⟩
      else if str_contains error_msg "net::err_ssl_protocol_error" then
        ⟨domain, "", some (str_upper protocol ++ " SSL protocol error for " ++ domain), false, 0, none⟩
      else if str_contains error_msg "net::err_cert_authority_invalid" then
        ⟨domain, "", some (str_upper protocol ++ " invalid SSL certificate for " ++ domain), false, 0, none⟩
      else
        ⟨domain, "", some (str_upper protocol ++ " error: " ++ msg), false, 0, none⟩
    { res := res,
      trace := [.page_acquire, .goto url, .sleep env.delay_err],
      mgr := mgr }
  | .ok responses html =>
    let redirects := collect_redirects responses
    if max_redirects < redirects.length then
      { res := ⟨domain, "",
                some (str_upper protocol ++ " exceeded redirect limit (> " ++
                      toString max_redirects ++ ")"), false, 0, none⟩,
        trace := [.page_acquire, .goto url, .sleep env.delay_err],
        mgr := mgr }
    else
      let response_time := env.response_time
      let mgr' := mgr.update_stats domain response_time
      let base_trace : List Event := [.page_acquire, .goto url, .sleep env.delay_ok]
      if max_html_size < html.length then
        { res := ⟨domain, "",
                  some (str_upper protocol ++ " HTML too large (" ++ toString html.length ++
                        " bytes)"), false, 0, none⟩,
          trace := base_trace, mgr := mgr' }
      else if html.length < 300 then
        { res := ⟨domain, "", some (str_upper protocol ++ " content too small"), false, 0, none⟩,
          trace := base_trace, mgr := mgr' }
      else
        match blocking_keywords.find? (fun kw => contains_sub (py_lower html.data) kw.data) with
        | some keyword =>
          { res := ⟨domain, "",
                    some (str_upper protocol ++ " suspicious or protected content: " ++ keyword),
                    false, 0, none⟩,
            trace := base_trace, mgr := mgr' }
        | none =>
          match extract_text env.soup 3 with
          | none =>
            { res := ⟨domain, "",
                      some (str_upper protocol ++ " insufficient text content extracted"),
                      false, 0, none⟩,
              trace := base_trace, mgr := mgr' }
          | some extracted_text =>
            if extracted_text == "" || (py_strip extracted_text.data).length < 100 then
              { res := ⟨domain, "",
                        some (str_upper protocol ++ " insufficient text content extracted"),
                        false, 0, none⟩,
                trace := base_trace, mgr := mgr' }
            else
              { res := ⟨domain, extracted_text, none, false, response_time, some url⟩,
                trace := base_trace, mgr := mgr' }

/-- Navigation environments for the two protocol attempts of one
`_scrape_with_protocols` call. -/
structure ProtoEnv where
  https : UrlEnv
  http : UrlEnv
deriving DecidableEq

/-- Model of `WebScraper._scrape_with_protocols` (`qwen_scraper.py` lines
231-247): try `https` then `http`, returning the first error-free result,
and otherwise aggregate both protocol errors. -/
def scrape_with_protocols (pe : ProtoEnv) (mgr : AdaptiveTimeoutManager)
    (max_redirects max_html_size : Nat) (domain : String) : StepOut :=
  let s1 := scrape_url pe.https mgr max_redirects max_html_size
    ("https://" ++ domain) domain "https"
  match s1.res.error with
  | none => s1
  | some e1 =>
    let s2 := scrape_url pe.http s1.mgr max_redirects max_html_size
      ("http://" ++ domain) domain "http"
    match s2.res.error with
    | none => { s2 with trace := s1.trace ++ s2.trace }
    | some e2 =>
      { res := ⟨domain, "",
                some ("Both protocols failed - HTTPS: " ++ e1 ++ "; HTTP: " ++ e2),
                false, 0, none⟩,
        trace := s1.trace ++ s2.trace,
        mgr := s2.mgr }

/-- Outcome of one outer retry attempt: the navigation environments for a
normal `_scrape_with_protocols` run, or an exception raised out of it. -/
inductive AttemptOutcome where
  | run (pe : ProtoEnv)
  | raise (msg : String)

/-- Environment of one `scrape_domain` call: storage answer, robots answer,
DNS environment, initial timeout-manager state, and the outcome of each
outer attempt. -/
structure ScrapeEnv where
  dns : DnsEnv
  is_scraped : Bool
  robots_allowed : Bool
  mgr : AdaptiveTimeoutManager
  attempts : Nat → AttemptOutcome

/-- Result-and-trace pair returned by the scrape-domain model. -/
structure ScrapeOut where
  res : ScrapeResult
  trace : List Event

/-- Model of the outer retry loop of `scrape_domain` (`qwen_scraper.py`
lines 206-229), `for attempt in range(max_retries + 1)`.  An error-free
result is stored and returned; an errored result is stored and returned
only on the final attempt and otherwise triggers `time.sleep(2 ** attempt)`
and a retry; an exception is wrapped into an error result on the final
attempt and otherwise also triggers the backoff.  The fuel argument counts
the loop iterations left (`max_retries + 1` at entry); the fuel-exhaustion
branch is the unreachable fall-through after the loop. -/
def scrape_loop (env : ScrapeEnv) (domain : String) (max_retries max_html_size : Nat) :
    Nat → Nat → AdaptiveTimeoutManager → ScrapeOut
  | 0, _, _ =>
    { res := ⟨domain, "", some "Unexpected error: max retries exceeded", false, 0, none⟩,
      trace := [.store domain] }
  | fuel + 1, attempt, mgr =>
    match env.attempts attempt with
    | .run pe =>
      let s := scrape_with_protocols pe mgr 2 max_html_size domain
      match s.res.error with
      | none =>
        { res := s.res, trace := [.attempt_call attempt] ++ s.trace ++ [.store domain] }
      | some _ =>
        if attempt == max_retries then
          { res := s.res, trace := [.attempt_call attempt] ++ s.trace ++ [.store domain] }
        else
          let rest := scrape_loop env domain max_retries max_html_size fuel (attempt + 1) s.mgr
          { res := rest.res,
            trace := [.attempt_call attempt] ++ s.trace ++ [.sleep ((2 : ℚ) ^ attempt)] ++ rest.trace }
    | .raise msg =>
      if attempt == max_retries then
        { res := ⟨domain, "",
                  some ("Scraping failed after " ++ toString (max_retries + 1) ++
                        " attempts: " ++ msg), false, 0, none⟩,
          trace := [.attempt_call attempt, .store domain] }
      else
        let rest := scrape_loop env domain max_retries max_html_size fuel (attempt + 1) mgr
        { res := rest.res,
          trace := [.attempt_call attempt, .sleep ((2 : ℚ) ^ attempt)] ++ rest.trace }

/-- Model of `WebScraper.scrape_domain` (`qwen_scraper.py` lines 185-229):
normalize, validate the normalized domain, skip when storage already holds
a scrape, rate limit, run the SafetyGuard, consult robots, then enter the
outer retry loop.  `max_retries` is the scraper field (default 2). -/
def scrape_domain (env : ScrapeEnv) (domain : String)
    (max_retries max_html_size : Nat) : ScrapeOut :=
  let normalized := normalize_domain domain
  if !(is_valid_domain normalized) then
    { res := ⟨normalized, "", some "Invalid domain format", false, 0, none⟩,
      trace := [.valid_check normalized] }
  else if env.is_scraped then
    { res := ⟨normalized, "", some "Already scraped", true, 0, none⟩,
      trace := [.valid_check normalized, .scraped_check normalized] }
  else if !(check_domain_safety env.dns normalized) then
    { res := ⟨normalized, "", some "Blocked: Domain resolved to dangerous internal or metadata IP",
              false, 0, none⟩,
      trace := [.valid_check normalized, .scraped_check normalized, .rate_limit normalized,
                .safety_check normalized, .store normalized] }
  else if !env.robots_allowed then
    { res := ⟨normalized, "", some "Blocked: Disallowed by robots.txt", false, 0, none⟩,
      trace := [.valid_check normalized, .scraped_check normalized, .rate_limit normalized,
                .safety_check normalized, .robots_check normalized, .store normalized] }
  else
    let body := scrape_loop env normalized max_retries max_html_size (max_retries + 1) 0 env.mgr
    { res := body.res,
      trace := [.valid_check normalized, .scraped_check normalized, .rate_limit normalized,
                .safety_check normalized, .robots_check normalized] ++ body.trace }

/- ### `qwen_labeler.py` -/

/-- JSON values as relevant to the classifier backend responses. -/
inductive Jv where
  | jstr (s : String)
  | jnum (n : Int)
  | jnull
deriving DecidableEq

/-- A parsed JSON object: an association list standing for a Python dict
(keys unique, first binding wins). -/
abbrev JsonDict := List (String × Jv)

/-- Model of Python's `dict.get(key)` on a parsed JSON object. -/
def dict_get (d : JsonDict) (k : String) : Option Jv :=
  (d.find? (fun p => p.1 == k)).map (fun p => p.2)

/-- The fields `ask_qwen` requires in a backend response. -/
def required_fields : List String :=
  ["category", "subcategory", "confidence", "explanation"]

/-- The substitute object `ask_qwen` returns for an unparsable or
incomplete response. -/
def unknown_response : JsonDict :=
  [("category", .jstr "unknown"), ("subcategory", .jstr "unknown"),
   ("confidence", .jnum 0), ("explanation", .jstr "Failed to parse JSON")]

/-- Model of the response handling of `ask_qwen` (`qwen_labeler.py` lines
105-119).  The argument is the outcome of `json.loads(response)`, `none`
standing for a `JSONDecodeError`.  A decode failure or a missing required
field yields the fixed unknown object; otherwise the parsed object is
returned unchanged. -/
def ask_qwen_handle (parsed : Option JsonDict) : JsonDict :=
  match parsed with
  | none => unknown_response
  | some result =>
    if required_fields.all (fun key => (dict_get result key).isSome) then result
    else unknown_response

/-- Model of the response handling of `classify_domain_fallback`
(`qwen_labeler.py` lines 189-199): `json.loads(response)` is returned
as is when it parses, with no required-field check; any exception (decode
failure included, `err_msg` being its message) yields the fallback-failed
object. -/
def fallback_handle (parsed : Option JsonDict) (err_msg : String) : JsonDict :=
  match parsed with
  | some r => r
  | none =>
    [("category", .jstr "unknown"), ("subcategory", .jstr "unknown"),
     ("confidence", .jnum 0), ("explanation", .jstr ("Fallback failed: " ++ err_msg))]

/-- Per-domain classification record, mirroring the `ClassificationResult`
dataclass.  Python leaves the field types unenforced; the model keeps the
annotated types and coerces backend values where noted. -/
structure ClassificationResult where
  domain : String
  category : String
  subcategory : String
  confidence : Int
  explanation : String
  source : String
  classifier_error : Option String
  last_classified : Option ℚ
deriving DecidableEq

/-- Coercion of a backend JSON value into the string slot of the result
record (backend responses use strings here; other values are rendered). -/
def jv_as_str : Jv → String
  | .jstr s => s
  | .jnum n => toString n
  | .jnull => "None"

/-- Model of `int(float(classification.get("confidence", 0)))` guarded by
`except (ValueError, TypeError)` (`qwen_labeler.py` lines 262-265).  Float
parsing of strings is abstracted to integer literals. -/
def classification_confidence (c : JsonDict) : Int :=
  match dict_get c "confidence" with
  | none => 0
  | some (.jnum n) => n
  | some (.jstr s) =>
    match s.toInt? with
    | some n => n
    | none => 0
  | some .jnull => 0

/-- Model of the `ClassificationResult` construction in `label_domain`
(`qwen_labeler.py` lines 267-275) from the classification object, the
chosen source tag, and the current time. -/
def label_domain_build (domain : String) (c : JsonDict) (source : String)
    (now : ℚ) : ClassificationResult :=
  { domain := domain
    category := jv_as_str ((dict_get c "category").getD (.jstr "unknown"))
    subcategory := jv_as_str ((dict_get c "subcategory").getD (.jstr "unknown"))
    confidence := classification_confidence c
    explanation := jv_as_str ((dict_get c "explanation").getD (.jstr ""))
    source := source
    classifier_error := none
    last_classified := some now }

/-- The dict returned by `get_scraped_data` (`qwen_labeler.py` lines
201-211): keys `domain`, `scraped_text` and `error` (the latter holding the
`scrape_error` column, possibly `None`).  Values are optional strings so
that a stored `None` and an absent key are distinguishable at the map level
even though Python's `dict.get` conflates them. -/
def get_scraped_data_dict (domain scraped_text : String) (scrape_err : Option String) :
    List (String × Option String) :=
  [("domain", some domain), ("scraped_text", some scraped_text), ("error", scrape_err)]

/-- Python's `dict.get(key)` on such a dict: an absent key and a stored
`None` both give `None`. -/
def sdict_get (d : List (String × Option String)) (k : String) : Option String :=
  match d.find? (fun p => p.1 == k) with
  | none => none
  | some p => p.2

/-- The fallback-versus-content decision of `label_domain`
(`qwen_labeler.py` lines 251-255): `scrape_error = result.get("scrape_error")`,
`scraped_text = result.get("scraped_text", "")`, and the fallback path is
chosen when the error value is not `None`, the text contains
`"Both protocols failed"`, or `useless_text` holds. -/
def uses_fallback (data : List (String × Option String)) : Bool :=
  let scrape_error := sdict_get data "scrape_error"
  let scraped_text := (sdict_get data "scraped_text").getD ""
  scrape_error.isSome || str_contains scraped_text "Both protocols failed" ||
    useless_text scraped_text

/-- Conversion of one `asyncio.gather(..., return_exceptions=True)` slot in
`label_domains_in_batches` (`qwen_labeler.py` lines 319-324): an exception
becomes an error record carrying the exception message in
`classifier_error`; a normal result is kept. -/
def batch_entry (label : String → Except String ClassificationResult)
    (domain : String) : ClassificationResult :=
  match label domain with
  | .ok r => r
  | .error e =>
    { domain := domain, category := "error", subcategory := "unknown", confidence := 0,
      explanation := "", source := "", classifier_error := some e, last_classified := none }

/-- The batch loop of `label_domains_in_batches` (`qwen_labeler.py` lines
304-330): process `batch_size` domains at a time, appending the settled
results of each batch in order.  `fuel` bounds the iteration count (the
Python `range(0, len(domains), batch_size)` performs at most `len(domains)`
steps for a positive step; a zero step raises in Python and is never used). -/
def process_batches (label : String → Except String ClassificationResult)
    (batch_size : Nat) : Nat → List String → List ClassificationResult
  | 0, _ => []
  | fuel + 1, domains =>
    match domains with
    | [] => []
    | d :: ds =>
      ((d :: ds).take batch_size).map (batch_entry label) ++
        process_batches label batch_size fuel ((d :: ds).drop batch_size)

/-- Model of `label_domains_in_batches` (`qwen_labeler.py` lines 299-334):
the per-domain classification task is the `label` argument (an exception is
an `Except.error`); the function returns the settled results of all
batches, in input order. -/
def label_domains_in_batches (label : String → Except String ClassificationResult)
    (domains : List String) (batch_size : Nat) : List ClassificationResult :=
  process_batches label batch_size domains.length domains

/- ### Concrete fixtures used by witnesses and counterexamples -/

/-- An empty timeout-manager state with the constructor defaults
(`base_timeout=15.0`, `max_timeout=30.0`). -/
def mgr0 : AdaptiveTimeoutManager :=
  { base_timeout := 15, max_timeout := 30, domain_stats := [] }

/-- A DNS environment resolving to one public address. -/
def dns_safe : DnsEnv :=
  { resolve4 := some ["93.184.216.34"]
    resolve6 := none
    parse_ip := fun s => .v4 s false false false false false false
    cloud_ips := [] }

/-- A DNS environment resolving to the AWS metadata address, which is both
link-local and a member of the cloud-metadata set. -/
def dns_metadata : DnsEnv :=
  { resolve4 := some ["169.254.169.254"]
    resolve6 := none
    parse_ip := fun s => .v4 s false false true false false false
    cloud_ips := ["169.254.169.254"] }

/-- A parsed document with no title, meta description, heading or
paragraphs. -/
def soup0 : Soup :=
  { title := none, meta_description := none, h1 := none, paragraphs := [] }

/-- A 300-character page content, large enough to pass the size window and
containing no blocking keyword. -/
def html300 : String :=
  String.mk (List.replicate 300 'z')

/-- Navigation that succeeds after a single redirect hop pointing at the
cloud-metadata service, then serves ordinary content. -/
def url_env_redirect : UrlEnv :=
  { nav := .ok [(302, "http://169.254.169.254/latest/meta-data/")] html300
    soup := soup0
    response_time := 0
    delay_err := 0
    delay_ok := 0 }

/-- Navigation that succeeds with no redirects and ordinary content. -/
def url_env_plain : UrlEnv :=
  { nav := .ok [] html300
    soup := soup0
    response_time := 0
    delay_err := 0
    delay_ok := 0 }

/-- Navigation observing three redirect responses, which exceeds the
redirect cap of 2. -/
def url_env_redirects3 : UrlEnv :=
  { nav := .ok [(301, "https://a.example/"), (302, "https://b.example/"),
                (303, "https://c.example/")] html300
    soup := soup0
    response_time := 0
    delay_err := 0
    delay_ok := 0 }

/-- A protocol environment in which both protocols exceed the redirect
cap, producing a clean business-logic failure on every attempt. -/
def pe_redirects3 : ProtoEnv :=
  { https := url_env_redirects3, http := url_env_redirects3 }

/-- Scrape environment for a safe, unscraped, robots-allowed domain whose
every attempt fails with the redirect-limit error. -/
def env_retry : ScrapeEnv :=
  { dns := dns_safe, is_scraped := false, robots_allowed := true, mgr := mgr0,
    attempts := fun _ => .run pe_redirects3 }

/-- Scrape environment for a domain already marked scraped in storage. -/
def env_scraped : ScrapeEnv :=
  { dns := dns_safe, is_scraped := true, robots_allowed := true, mgr := mgr0,
    attempts := fun _ => .run pe_redirects3 }

/-- Scrape environment for an unscraped domain resolving to the metadata
address. -/
def env_metadata : ScrapeEnv :=
  { dns := dns_metadata, is_scraped := false, robots_allowed := true, mgr := mgr0,
    attempts := fun _ => .run pe_redirects3 }

/-- Scrape environment for a safe, unscraped domain that robots.txt
disallows. -/
def env_robots : ScrapeEnv :=
  { dns := dns_safe, is_scraped := false, robots_allowed := false, mgr := mgr0,
    attempts := fun _ => .run pe_redirects3 }

/-- A 63-character label. -/
def label63 : String :=
  String.mk (List.replicate 63 'a')

/-- A 58-character label. -/
def label58 : String :=
  String.mk (List.replicate 58 'a')

/-- A 254-character raw input: `www.` followed by a 250-character valid
domain.  The raw string exceeds the 253-character bound, but normalization
strips the `www.`. -/
def long_www_domain : String :=
  "www." ++ label63 ++ "." ++ label63 ++ "." ++ label63 ++ "." ++ label58

/-- A backend response that is valid JSON but carries only a category. -/
def category_only_response : JsonDict :=
  [("category", .jstr "tech")]

/-- Scraped text that is present, error-free and matches no noise signal,
yet has fewer than 10 tokens. -/
def short_token_text : String :=
  "Artisanal woodworking supplies and handcrafted furniture"

/-- A classification task that raises for one specific domain. -/
def wlabel : String → Except String ClassificationResult :=
  fun d =>
    if d == "bad.example" then .error "boom"
    else .ok { domain := d, category := "tech", subcategory := "software", confidence := 9,
               explanation := "ok", source := "qwen", classifier_error := none,
               last_classified := none }

/-- A three-domain batch input. -/
def wdomains : List String :=
  ["a.example", "bad.example", "c.example"]

/-- The address condition listed by the safety claim, evaluated on one
resolved address string: the parsed address is private, loopback,
link-local, multicast, reserved, unspecified or (for IPv6) site-local, or
the address is a member of the cloud-metadata IP set.  An unparsable
string falls under the listing only through metadata membership. -/
def dangerous_by_class (env : DnsEnv) (ip : String) : Bool :=
  match env.parse_ip ip with
  | .invalid => env.cloud_ips.contains ip
  | .v4 canon priv lo ll mc rsv unspec =>
    env.cloud_ips.contains ip || env.cloud_ips.contains canon ||
      priv || lo || ll || mc || rsv || unspec
  | .v6 canon priv lo ll mc rsv unspec sl =>
    env.cloud_ips.contains ip || env.cloud_ips.contains canon ||
      priv || lo || ll || mc || rsv || unspec || sl

/- ### Helper lemmas -/

set_option maxRecDepth 100000

/-- An address dangerous by the listed classes is dangerous for
`is_dangerous_ip`. -/
theorem is_dangerous_of_class (env : DnsEnv) (ip : String)
    (h : dangerous_by_class env ip = true) : is_dangerous_ip env ip = true := by
  unfold dangerous_by_class at h
  unfold is_dangerous_ip
  cases hp : env.parse_ip ip with
  | invalid => simp only [hp]
  | v4 canon priv lo ll mc rsv unspec =>
    simp only [hp] at h ⊢
    by_cases hc : (env.cloud_ips.contains ip || env.cloud_ips.contains canon) = true
    · rw [if_pos hc]
    · rw [if_neg hc]
      have hc' : (env.cloud_ips.contains ip || env.cloud_ips.contains canon) = false := by
        simpa using hc
      simp only [hc', Bool.false_or] at h
      exact h
  | v6 canon priv lo ll mc rsv unspec sl =>
    simp only [hp] at h ⊢
    by_cases hc : (env.cloud_ips.contains ip || env.cloud_ips.contains canon) = true
    · rw [if_pos hc]
    · rw [if_neg hc]
      have hc' : (env.cloud_ips.contains ip || env.cloud_ips.contains canon) = false := by
        simpa using hc
      simp only [hc', Bool.false_or] at h
      exact h

/-- When every resolved address is dangerous by the listed classes (or no
address resolved at all), `check_domain_safety` fails closed. -/
theorem check_domain_safety_false_of_dangerous (env : DnsEnv) (d : String)
    (h : ∀ ip ∈ dns_all_ips env, dangerous_by_class env ip = true) :
    check_domain_safety env d = false := by
  unfold check_domain_safety
  cases hl : dns_all_ips env with
  | nil => simp [hl]
  | cons a t =>
    have ha : is_dangerous_ip env a = true :=
      is_dangerous_of_class env a (h a (by rw [hl]; exact List.mem_cons_self a t))
    simp [hl, List.all_cons, ha]

/-- With a positive batch size and enough fuel, the batch loop settles
every domain in order: it equals a plain map of `batch_entry`. -/
theorem process_batches_eq_map (label : String → Except String ClassificationResult)
    (batch_size : Nat) (hbs : 0 < batch_size) :
    ∀ fuel domains, domains.length ≤ fuel →
      process_batches label batch_size fuel domains = domains.map (batch_entry label) := by
  intro fuel
  induction fuel with
  | zero =>
    intro domains hlen
    have : domains = [] := List.eq_nil_of_length_eq_zero (Nat.le_zero.mp hlen)
    subst this
    rfl
  | succ n ih =>
    intro domains hlen
    cases domains with
    | nil => rfl
    | cons d ds =>
      have hdrop : ((d :: ds).drop batch_size).length ≤ n := by
        simp only [List.length_drop, List.length_cons] at *
        omega
      calc process_batches label batch_size (n + 1) (d :: ds)
          = ((d :: ds).take batch_size).map (batch_entry label) ++
              process_batches label batch_size n ((d :: ds).drop batch_size) := rfl
        _ = ((d :: ds).take batch_size).map (batch_entry label) ++
              ((d :: ds).drop batch_size).map (batch_entry label) := by rw [ih _ hdrop]
        _ = (d :: ds).map (batch_entry label) := by
              rw [← List.map_append, List.take_append_drop]

/- ### Claim C2 -/

/-- C2: `extract_text` collects parts but contains no return statement, so
it returns `None` for every parsed document; consequently `_scrape_url`
never returns a `ScrapeResult` with `error = None` (hence never with
error-free non-empty text), and every navigation that reaches the
text-extraction step ends in the "insufficient text content extracted"
error for its protocol. -/
theorem c2_extract_text_always_none :
    (∀ soup max_paragraphs, extract_text soup max_paragraphs = none) ∧
    (∀ env mgr mr mhs url domain protocol,
      ((scrape_url env mgr mr mhs url domain protocol).res.error).isSome = true) ∧
    (∀ env mgr mr mhs url domain protocol responses html,
      env.nav = .ok responses html →
      (collect_redirects responses).length ≤ mr →
      300 ≤ html.length → html.length ≤ mhs →
      blocking_keywords.find? (fun kw => contains_sub (py_lower html.data) kw.data) = none →
      (scrape_url env mgr mr mhs url domain protocol).res.error =
        some (str_upper protocol ++ " insufficient text content extracted")) := by
  refine ⟨fun soup mp => rfl, ?_, ?_⟩
  · intro env mgr mr mhs url domain protocol
    unfold scrape_url
    cases hn : env.nav <;> simp only [extract_text] <;> (repeat' split) <;> simp
  · intro env mgr mr mhs url domain protocol responses html hnav hred hlow hhigh hkw
    unfold scrape_url
    rw [hnav]
    simp only [extract_text]
    rw [if_neg (by omega), if_neg (by omega), if_neg (by omega), hkw]

/-- C2 witness: a concrete successful navigation with ordinary content
ends in the insufficient-text error. -/
theorem c2_extract_text_always_none_witness :
    (scrape_url url_env_plain mgr0 2 1000000 "https://example.com" "example.com" "https").res.error =
      some "HTTPS insufficient text content extracted" :=
  (c2_extract_text_always_none.2.2 url_env_plain mgr0 2 1000000 "https://example.com"
    "example.com" "https" [] html300 rfl (by decide) (by decide) (by decide) (by decide)).trans
    (by decide)

/- ### Claim C1 -/

/-- C1 counterexample: a fetch whose navigation follows a single redirect
pointing at the cloud-metadata service (an address `is_dangerous_ip`
classifies as dangerous) performs no SafetyGuard validation at all and is
not aborted: it proceeds past the redirect to ordinary content processing. -/
theorem c1_redirect_counterexample :
    url_env_redirect.nav = .ok [(302, "http://169.254.169.254/latest/meta-data/")] html300 ∧
    is_dangerous_ip dns_metadata "169.254.169.254" = true ∧
    ((scrape_url url_env_redirect mgr0 2 1000000 "https://example.com" "example.com" "https").trace.all
      (fun e => !(is_safety_event e))) = true ∧
    (scrape_url url_env_redirect mgr0 2 1000000 "https://example.com" "example.com" "https").res.error =
      some "HTTPS insufficient text content extracted" :=
  ⟨rfl, by decide, by decide, by decide⟩

/-- C1 (amended): `_scrape_url` never re-validates redirect targets — its
trace contains no SafetyGuard event for any navigation outcome; the only
redirect control is the post-navigation count, which aborts the protocol
attempt with the redirect-limit error exactly when more than
`max_redirects` redirect responses were observed. -/
theorem c1_no_redirect_revalidation :
    (∀ env mgr mr mhs url domain protocol,
      ((scrape_url env mgr mr mhs url domain protocol).trace.all
        (fun e => !(is_safety_event e))) = true) ∧
    (∀ env mgr mr mhs url domain protocol responses html,
      env.nav = .ok responses html → mr < (collect_redirects responses).length →
      (scrape_url env mgr mr mhs url domain protocol).res.error =
        some (str_upper protocol ++ " exceeded redirect limit (> " ++ toString mr ++ ")")) := by
  constructor
  · intro env mgr mr mhs url domain protocol
    unfold scrape_url
    cases hn : env.nav <;> simp only [extract_text] <;> (repeat' split) <;>
      simp [is_safety_event]
  · intro env mgr mr mhs url domain protocol responses html hnav hred
    unfold scrape_url
    rw [hnav]
    simp only [extract_text]
    rw [if_pos hred]

/-- C1 (amended) witness: three observed redirects exceed the cap of 2 and
abort the HTTPS attempt with the redirect-limit error. -/
theorem c1_no_redirect_revalidation_witness :
    (scrape_url url_env_redirects3 mgr0 2 1000000 "https://example.com" "example.com" "https").res.error =
      some "HTTPS exceeded redirect limit (> 2)" :=
  (c1_no_redirect_revalidation.2 url_env_redirects3 mgr0 2 1000000 "https://example.com"
    "example.com" "https" _ _ rfl (by decide)).trans (by decide)

/- ### Claim C3 -/

/-- C3: for a valid, not-yet-scraped domain whose DNS resolution yields no
addresses or only addresses that are private, loopback, link-local,
multicast, reserved, unspecified, IPv6 site-local or cloud-metadata
members, `check_domain_safety` returns false and `scrape_domain` returns
the unsafe-target error without ever acquiring a browser-pool session or
navigating. -/
theorem c3_unsafe_resolution_blocked (env : ScrapeEnv) (domain : String) (mr mhs : Nat)
    (hdns : ∀ ip ∈ dns_all_ips env.dns, dangerous_by_class env.dns ip = true)
    (hvalid : is_valid_domain (normalize_domain domain) = true)
    (hscr : env.is_scraped = false) :
    check_domain_safety env.dns (normalize_domain domain) = false ∧
    (scrape_domain env domain mr mhs).res.error =
      some "Blocked: Domain resolved to dangerous internal or metadata IP" ∧
    Event.page_acquire ∉ (scrape_domain env domain mr mhs).trace ∧
    (∀ u, Event.goto u ∉ (scrape_domain env domain mr mhs).trace) := by
  have hc := check_domain_safety_false_of_dangerous env.dns (normalize_domain domain) hdns
  refine ⟨hc, ?_, ?_, ?_⟩ <;>
    · unfold scrape_domain
      simp [hvalid, hscr, hc]

/-- C3 witness: a domain resolving only to the metadata address is blocked
with the unsafe-target error. -/
theorem c3_unsafe_resolution_blocked_witness :
    (∀ ip ∈ dns_all_ips env_metadata.dns, dangerous_by_class env_metadata.dns ip = true) ∧
    (scrape_domain env_metadata "example.com" 2 1000000).res.error =
      some "Blocked: Domain resolved to dangerous internal or metadata IP" :=
  ⟨by decide,
   (c3_unsafe_resolution_blocked env_metadata "example.com" 2 1000000
      (by decide) (by decide) (by decide)).2.1⟩

/- ### Claim C4 -/

/-- C4: for a valid domain that storage reports as already scraped,
`scrape_domain` returns a skipped result immediately: the trace consists of
the format check and the storage check only, so no rate limiting, safety
checking or browser/network activity happens, and a second `fetch` of an
already-stored domain is a pure skip. -/
theorem c4_already_scraped_skips (env : ScrapeEnv) (domain : String) (mr mhs : Nat)
    (hvalid : is_valid_domain (normalize_domain domain) = true)
    (hscr : env.is_scraped = true) :
    (scrape_domain env domain mr mhs).res.skipped = true ∧
    (scrape_domain env domain mr mhs).res.error = some "Already scraped" ∧
    (scrape_domain env domain mr mhs).trace =
      [.valid_check (normalize_domain domain), .scraped_check (normalize_domain domain)] ∧
    ((scrape_domain env domain mr mhs).trace.all is_pre_network_event) = true := by
  refine ⟨?_, ?_, ?_, ?_⟩ <;>
    · unfold scrape_domain
      simp [hvalid, hscr, is_pre_network_event]

/-- C4 witness: a concrete already-scraped domain is skipped with no
further activity. -/
theorem c4_already_scraped_skips_witness :
    (scrape_domain env_scraped "example.com" 2 1000000).res.skipped = true ∧
    ((scrape_domain env_scraped "example.com" 2 1000000).trace.all is_pre_network_event) = true :=
  ⟨(c4_already_scraped_skips env_scraped "example.com" 2 1000000 (by decide) (by decide)).1,
   (c4_already_scraped_skips env_scraped "example.com" 2 1000000 (by decide) (by decide)).2.2.2⟩

/- ### Claim C9 -/

/-- C9 counterexample: the 254-character input `long_www_domain` is
malformed by the claim's listing (total length greater than 253) and
`is_valid_domain` rejects it, yet `scrape_domain` does not return the
invalid-format error: normalization strips the leading `www.`, the
250-character remainder is valid, and the scrape proceeds — here all the
way through rate limiting (and the robots consultation), contradicting
"returns the InvalidFormat error immediately, issuing zero network
calls". -/
theorem c9_normalization_counterexample :
    long_www_domain.length = 254 ∧
    is_valid_domain long_www_domain = false ∧
    (scrape_domain env_robots long_www_domain 2 1000000).res.error =
      some "Blocked: Disallowed by robots.txt" ∧
    Event.rate_limit (normalize_domain long_www_domain) ∈
      (scrape_domain env_robots long_www_domain 2 1000000).trace :=
  ⟨by decide, by decide, by decide, by decide⟩

/-- C9 (amended): `is_valid_domain` itself rejects every malformed string
of the claim's listing (empty, longer than 253 characters, a label longer
than 63 characters, or a label with a leading or trailing hyphen); and
whenever the *normalized* domain is invalid, `scrape_domain` returns the
invalid-format error immediately with a trace containing only the format
check — no rate limiting, no DNS resolution, no browser-pool acquisition.
A raw input that is malformed only before normalization (scheme or `www.`
stripping) can still be scraped. -/
theorem c9_invalid_format_guard :
    (∀ d : String,
      (d = "" ∨ 253 < d.length ∨
        ∃ lab ∈ split_on_char '.' d.data,
          63 < lab.length ∨ lab.head? = some '-' ∨ lab.getLast? = some '-') →
      is_valid_domain d = false) ∧
    (∀ env domain mr mhs, is_valid_domain (normalize_domain domain) = false →
      (scrape_domain env domain mr mhs).res.error = some "Invalid domain format" ∧
      (scrape_domain env domain mr mhs).trace = [.valid_check (normalize_domain domain)] ∧
      ((scrape_domain env domain mr mhs).trace.all is_pre_network_event) = true) := by
  constructor
  · intro d hd
    rcases hd with hd | hd | ⟨lab, hmem, hbad⟩
    · subst hd; decide
    · unfold is_valid_domain
      rw [if_pos hd]
    · by_cases hlen : 253 < d.length
      · unfold is_valid_domain
        rw [if_pos hlen]
      · unfold is_valid_domain
        rw [if_neg hlen]
        have hlab : valid_label lab = false := by
          cases lab with
          | nil => rfl
          | cons c cs =>
            rw [Bool.eq_false_iff]
            intro hv
            simp only [valid_label, Bool.and_eq_true, decide_eq_true_eq, Bool.not_eq_true',
              beq_iff_eq, beq_eq_false_iff_ne, ne_eq, List.head?_cons, Option.some.injEq] at hv hbad
            rcases hbad with hb | hb | hb
            · omega
            · exact hv.1.2 (by simpa using hb)
            · rcases hv with ⟨⟨_, _⟩, hlast⟩
              simp [hb] at hlast
        rw [Bool.eq_false_iff]
        intro hall
        rw [List.all_eq_true] at hall
        have := hall lab hmem
        rw [hlab] at this
        exact Bool.false_ne_true this
  · intro env domain mr mhs hinv
    refine ⟨?_, ?_, ?_⟩ <;>
      · unfold scrape_domain
        simp [hinv, is_pre_network_event]

/-- C9 (amended) witness: a leading-hyphen label is rejected and yields the
invalid-format error with a pure-validation trace. -/
theorem c9_invalid_format_guard_witness :
    is_valid_domain "-a.example" = false ∧
    (scrape_domain env_robots "-a.example" 2 1000000).res.error = some "Invalid domain format" :=
  ⟨c9_invalid_format_guard.1 "-a.example" (by decide),
   (c9_invalid_format_guard.2 env_robots "-a.example" 2 1000000 (by decide)).1⟩

/- ### Claim C5 -/

/-- C5 counterexample: with every attempt returning a clean business-logic
failure (`Both protocols failed` after redirect-limit errors on both
protocols) and no exception ever raised, the outer loop does not return
after the first attempt: the trace of `scrape_domain` records the second
and third attempt calls, so an errored `ScrapeResult` also triggers the
backoff-and-retry. -/
theorem c5_retry_counterexample :
    (scrape_with_protocols pe_redirects3 mgr0 2 1000000 "example.com").res.error =
      some ("Both protocols failed - HTTPS: HTTPS exceeded redirect limit (> 2); " ++
            "HTTP: HTTP exceeded redirect limit (> 2)") ∧
    Event.attempt_call 1 ∈ (scrape_domain env_retry "example.com" 2 1000000).trace ∧
    Event.attempt_call 2 ∈ (scrape_domain env_retry "example.com" 2 1000000).trace :=
  ⟨by decide, by decide, by decide⟩

/-- C5 (amended): in the outer retry loop, an error-free result is stored
and returned at once; an attempt whose `_scrape_with_protocols` run returns
a `ScrapeResult` with a non-`None` error triggers `time.sleep(2 ** attempt)`
and a further attempt whenever the attempt index is below `max_retries`,
and only on the final attempt is the errored result stored and returned.
Backoff-and-retry is therefore triggered by errored results as well as by
exceptions, not by exceptions alone. -/
theorem c5_errored_results_also_retry (env : ScrapeEnv) (domain : String)
    (mr mhs fuel attempt : Nat) (mgr : AdaptiveTimeoutManager) (pe : ProtoEnv)
    (hpe : env.attempts attempt = .run pe) :
    ((scrape_with_protocols pe mgr 2 mhs domain).res.error = none →
      scrape_loop env domain mr mhs (fuel + 1) attempt mgr =
        { res := (scrape_with_protocols pe mgr 2 mhs domain).res,
          trace := [.attempt_call attempt] ++ (scrape_with_protocols pe mgr 2 mhs domain).trace ++
                   [.store domain] }) ∧
    (∀ e, (scrape_with_protocols pe mgr 2 mhs domain).res.error = some e → attempt ≠ mr →
      scrape_loop env domain mr mhs (fuel + 1) attempt mgr =
        { res := (scrape_loop env domain mr mhs fuel (attempt + 1)
                    (scrape_with_protocols pe mgr 2 mhs domain).mgr).res,
          trace := [.attempt_call attempt] ++ (scrape_with_protocols pe mgr 2 mhs domain).trace ++
                   [.sleep ((2 : ℚ) ^ attempt)] ++
                   (scrape_loop env domain mr mhs fuel (attempt + 1)
                      (scrape_with_protocols pe mgr 2 mhs domain).mgr).trace }) ∧
    (∀ e, (scrape_with_protocols pe mgr 2 mhs domain).res.error = some e → attempt = mr →
      scrape_loop env domain mr mhs (fuel + 1) attempt mgr =
        { res := (scrape_with_protocols pe mgr 2 mhs domain).res,
          trace := [.attempt_call attempt] ++ (scrape_with_protocols pe mgr 2 mhs domain).trace ++
                   [.store domain] }) := by
  refine ⟨?_, ?_, ?_⟩
  · intro herr
    rw [scrape_loop, hpe]
    simp only [herr]
  · intro e herr hne
    rw [scrape_loop, hpe]
    simp only [herr]
    rw [if_neg (by simpa using hne)]
  · intro e herr heq
    rw [scrape_loop, hpe]
    simp only [herr]
    rw [if_pos (by simpa using heq)]

/-- C5 (amended) witness: at attempt 0 of 2 with a clean errored result,
the loop recurses into attempt 1 after a 1-second backoff. -/
theorem c5_errored_results_also_retry_witness :
    scrape_loop env_retry "example.com" 2 1000000 3 0 mgr0 =
      { res := (scrape_loop env_retry "example.com" 2 1000000 2 1
                  (scrape_with_protocols pe_redirects3 mgr0 2 1000000 "example.com").mgr).res,
        trace := [.attempt_call 0] ++
                 (scrape_with_protocols pe_redirects3 mgr0 2 1000000 "example.com").trace ++
                 [.sleep ((2 : ℚ) ^ 0)] ++
                 (scrape_loop env_retry "example.com" 2 1000000 2 1
                    (scrape_with_protocols pe_redirects3 mgr0 2 1000000 "example.com").mgr).trace } :=
  (c5_errored_results_also_retry env_retry "example.com" 2 1000000 2 0 mgr0 pe_redirects3
      rfl).2.1
    ("Both protocols failed - HTTPS: HTTPS exceeded redirect limit (> 2); " ++
     "HTTP: HTTP exceeded redirect limit (> 2)")
    (by decide) (by decide)

/- ### Claim C6 -/

/-- C6 counterexample: scraped text that is present, carries no error and
matches zero noise signals still sends `label_domain` down the fallback
path, because `useless_text` also fires on texts with fewer than 10
whitespace tokens — so the fallback is not chosen *exactly* under the
claim's three conditions. -/
theorem c6_fallback_counterexample :
    short_token_text ≠ "" ∧
    matched_signals (py_lower short_token_text.data) = 0 ∧
    30 ≤ (py_strip short_token_text.data).length ∧
    uses_fallback (get_scraped_data_dict "x.example" short_token_text none) = true :=
  ⟨by decide, by decide, by decide, by decide⟩

/-- C6 (amended): for the dict produced by `get_scraped_data`, the fallback
path is chosen exactly when the stored text contains "Both protocols
failed" or `useless_text` holds of it (empty or stripped length below 30,
at least 2 of the — in fact 12, not 11 — noise signals, or fewer than 10
tokens).  The recorded scrape error never influences the decision
directly: `label_domain` reads key "scrape_error" while `get_scraped_data`
stores the error under key "error", so that lookup is always `None`. -/
theorem c6_fallback_condition (domain text : String) (scrape_err : Option String) :
    uses_fallback (get_scraped_data_dict domain text scrape_err) =
      (str_contains text "Both protocols failed" || useless_text text) ∧
    sdict_get (get_scraped_data_dict domain text scrape_err) "scrape_error" = none ∧
    noisy_signals.length = 12 := by
  refine ⟨rfl, rfl, by decide⟩

/- ### Claim C7 -/

/-- C7 counterexample: a backend response that is valid JSON but misses
the required fields `subcategory`, `confidence` and `explanation` is passed
through unchecked on the fallback path, and the pipeline keeps its
category "tech" (with confidence 0) instead of producing
`category = "unknown"`. -/
theorem c7_fallback_passthrough_counterexample :
    required_fields.all (fun k => (dict_get category_only_response k).isSome) = false ∧
    (label_domain_build "x.example" (fallback_handle (some category_only_response) "")
        "qwen-fallback" 0).category = "tech" ∧
    ("tech" : String) ≠ "unknown" :=
  ⟨by decide, by decide, by decide⟩

/-- C7 (amended): invalid JSON yields `category = "unknown"`,
`confidence = 0` on both the content path (`ask_qwen`) and the fallback
path, and a response missing a required field yields the same on the
content path; on the fallback path, however, valid JSON is returned
unchecked, with only per-field defaults applied downstream — parsing never
raises in either handler, every outcome being a returned object. -/
theorem c7_parse_failure_defaults :
    (∀ domain source now,
      (label_domain_build domain (ask_qwen_handle none) source now).category = "unknown" ∧
      (label_domain_build domain (ask_qwen_handle none) source now).confidence = 0) ∧
    (∀ domain source now e,
      (label_domain_build domain (fallback_handle none e) source now).category = "unknown" ∧
      (label_domain_build domain (fallback_handle none e) source now).confidence = 0) ∧
    (∀ r, required_fields.all (fun k => (dict_get r k).isSome) = false →
      ask_qwen_handle (some r) = unknown_response) ∧
    (∀ domain source now r, required_fields.all (fun k => (dict_get r k).isSome) = false →
      (label_domain_build domain (ask_qwen_handle (some r)) source now).category = "unknown" ∧
      (label_domain_build domain (ask_qwen_handle (some r)) source now).confidence = 0) ∧
    (∀ r e, fallback_handle (some r) e = r) := by
  have hmiss : ∀ r, required_fields.all (fun k => (dict_get r k).isSome) = false →
      ask_qwen_handle (some r) = unknown_response := by
    intro r h
    show (if (required_fields.all fun key => (dict_get r key).isSome) = true then r
          else unknown_response) = unknown_response
    rw [if_neg (by simp [h])]
  refine ⟨fun domain source now => ⟨rfl, rfl⟩, fun domain source now e => ⟨rfl, rfl⟩,
    hmiss, ?_, fun r e => rfl⟩
  intro domain source now r h
  rw [hmiss r h]
  exact ⟨rfl, rfl⟩

/-- C7 (amended) witness: the category-only response is recognised as
missing required fields and replaced by the unknown object on the content
path. -/
theorem c7_parse_failure_defaults_witness :
    ask_qwen_handle (some category_only_response) = unknown_response :=
  c7_parse_failure_defaults.2.2.1 category_only_response (by decide)

/- ### Claim C8 -/

/-- C8: for every input list of N domains and positive batch size,
`label_domains_in_batches` returns exactly N results, the i-th settling the
i-th input domain; a per-domain task that raises is converted into an
error record carrying the exception message in `classifier_error` instead
of aborting the batch or losing the domain. -/
theorem c8_batches_settle_every_domain (label : String → Except String ClassificationResult)
    (domains : List String) (batch_size : Nat) (hbs : 0 < batch_size) :
    (label_domains_in_batches label domains batch_size).length = domains.length ∧
    (∀ i : Nat, (label_domains_in_batches label domains batch_size)[i]? =
      (domains[i]?).map (batch_entry label)) ∧
    (∀ d e, label d = .error e → batch_entry label d =
      { domain := d, category := "error", subcategory := "unknown", confidence := 0,
        explanation := "", source := "", classifier_error := some e,
        last_classified := none }) := by
  have hmap : label_domains_in_batches label domains batch_size =
      domains.map (batch_entry label) :=
    process_batches_eq_map label batch_size hbs domains.length domains (Nat.le_refl _)
  refine ⟨?_, ?_, ?_⟩
  · rw [hmap, List.length_map]
  · intro i
    rw [hmap, List.getElem?_map]
  · intro d e hd
    unfold batch_entry
    rw [hd]

/-- C8 witness: a three-domain batch with one raising task yields three
results with the middle one marked by the exception message. -/
theorem c8_batches_settle_every_domain_witness :
    (label_domains_in_batches wlabel wdomains 2).length = wdomains.length ∧
    (label_domains_in_batches wlabel wdomains 2)[1]? =
      (wdomains[1]?).map (batch_entry wlabel) ∧
    (label_domains_in_batches wlabel wdomains 2)[1]? =
      some { domain := "bad.example", category := "error", subcategory := "unknown",
             confidence := 0, explanation := "", source := "",
             classifier_error := some "boom", last_classified := none } :=
  ⟨(c8_batches_settle_every_domain wlabel wdomains 2 (by decide)).1,
   (c8_batches_settle_every_domain wlabel wdomains 2 (by decide)).2.1 1,
   by decide⟩

/- ### Claim C10 -/

/-- C10: with the constructor defaults (base 15, max 30), `get_timeout`
returns `clamp(avg * 3, 15, 30)` — `min(avg * 3, 30)` raised to at least
15 — whenever a positive running average exists, the base timeout 15 when
none does, and the returned timeout always lies in the interval
`[15, 30]`. -/
theorem c10_timeout_clamp (stats : List (String × DomainStats)) (domain : String) :
    AdaptiveTimeoutManager.get_timeout ⟨15, 30, stats⟩ domain =
      (if 0 < AdaptiveTimeoutManager.avg_of ⟨15, 30, stats⟩ domain then
        max (min (AdaptiveTimeoutManager.avg_of ⟨15, 30, stats⟩ domain * 3) 30) 15
       else 15) ∧
    15 ≤ AdaptiveTimeoutManager.get_timeout ⟨15, 30, stats⟩ domain ∧
    AdaptiveTimeoutManager.get_timeout ⟨15, 30, stats⟩ domain ≤ 30 := by
  refine ⟨rfl, ?_, ?_⟩ <;>
    · simp only [AdaptiveTimeoutManager.get_timeout]
      split
      · first
        | exact le_max_right _ _
        | exact max_le (le_trans (min_le_right _ _) (by norm_num)) (by norm_num)
      · norm_num
